import Mathlib

/-!
Verification of the client-side library state manager and filter/import
pipeline of the book-library tracker.  The definitions below are a shallow
embedding of the TypeScript source: JavaScript strings become Lean strings,
JavaScript numbers produced by parseInt become Option Int (none models NaN),
and the React state updates become explicit functions from the old book list
to the new one.
-/

namespace BookLib

/-! ## JavaScript primitives -/

/-- Numeric value of a list of decimal digit characters. -/
def digitsVal (cs : List Char) : Nat :=
  cs.foldl (fun acc c => acc * 10 + (c.toNat - '0'.toNat)) 0

/-- Model of JavaScript parseInt(s, 10): skip leading whitespace, read an
optional sign and then the longest prefix of decimal digits; the result is
none (NaN) when no digit is found. -/
def jsParseInt (s : String) : Option Int :=
  let cs := s.data.dropWhile (fun c => c.isWhitespace)
  let signAndRest : Int × List Char :=
    match cs with
    | '-' :: rest => (-1, rest)
    | '+' :: rest => (1, rest)
    | _ => (1, cs)
  let digits := signAndRest.2.takeWhile (fun c => c.isDigit)
  if digits.isEmpty then none
  else some (signAndRest.1 * (digitsVal digits : Int))

/-- JavaScript truthiness of a possibly-undefined string: undefined and the
empty string are falsy. -/
def jsTruthy (o : Option String) : Bool :=
  match o with
  | some s => !s.isEmpty
  | none => false

/-- JavaScript a-or-b on a possibly-undefined string: the shape x || d where
d is a definite string. -/
def jsStrOr (a : Option String) (d : String) : String :=
  match a with
  | some s => if s.isEmpty then d else s
  | none => d

/-- JavaScript a-or-b on two definite strings: the shape x || d where the
empty string is falsy. -/
def jsStrOrS (a d : String) : String :=
  if a.isEmpty then d else a

/-- JavaScript n || 0 on a parseInt result: NaN and 0 both give 0. -/
def jsNumOrZero (o : Option Int) : Int :=
  match o with
  | none => 0
  | some n => n

/-- Does the first list start with the second one? -/
def startsWithChars : List Char → List Char → Bool
  | _, [] => true
  | [], _ :: _ => false
  | a :: as, b :: bs => a == b && startsWithChars as bs

/-- Model of JavaScript s.startsWith(t).  (The core String.startsWith is
not kernel-reducible, so the character-list form is used throughout.) -/
def strStartsWith (s t : String) : Bool :=
  startsWithChars s.data t.data

/-- Model of JavaScript s.endsWith(t). -/
def strEndsWith (s t : String) : Bool :=
  startsWithChars s.data.reverse t.data.reverse

/-- Model of JavaScript s.trim(): remove leading and trailing whitespace. -/
def strTrim (s : String) : String :=
  String.mk (((s.data.dropWhile Char.isWhitespace).reverse.dropWhile Char.isWhitespace).reverse)

/-- Split a character list at every character satisfying the predicate,
keeping empty parts, as JavaScript s.split(single-character separator). -/
def splitChars (p : Char → Bool) : List Char → List (List Char)
  | [] => [[]]
  | c :: rest =>
    if p c then [] :: splitChars p rest
    else
      match splitChars p rest with
      | [] => [[c]]
      | part :: parts => (c :: part) :: parts

/-- Model of JavaScript s.split(sep) for a one-character separator. -/
def strSplit (s : String) (p : Char → Bool) : List String :=
  (splitChars p s.data).map String.mk

/-- Does the first list contain the second one as a contiguous run? -/
def containsChars : List Char → List Char → Bool
  | [], needle => needle.isEmpty
  | hay@(_ :: t), needle => startsWithChars hay needle || containsChars t needle

/-- Model of JavaScript s.includes(sub). -/
def jsIncludes (s sub : String) : Bool :=
  containsChars s.data sub.data

/-- Model of JavaScript toLowerCase (ASCII range, which covers every string
this development evaluates it on). -/
def jsToLower (s : String) : String :=
  String.mk (s.data.map Char.toLower)

/-- Model of JavaScript s.replace(whitespace-class-regex-global, empty). -/
def jsStripSpace (s : String) : String :=
  ⟨s.data.filter (fun c => !c.isWhitespace)⟩

/-! ## Data model (src/types.ts) -/

/-- The ReadingStatus enumeration of src/types.ts; the associated string
values are the Turkish UI strings of the source. -/
inductive ReadingStatus where
  | Read
  | Unread
  | Reading
  | PlanningToRead
  | Dropped
deriving DecidableEq, Repr

/-- The string value carried by each ReadingStatus enum member. -/
def ReadingStatus.toStr : ReadingStatus → String
  | .Read => "Okudum"
  | .Unread => "Okumadım"
  | .Reading => "Okuyorum"
  | .PlanningToRead => "Okumayı Düşünüyorum"
  | .Dropped => "Yarıda Bıraktım"

/-- Reverse lookup in Object.values(ReadingStatus): recognise a raw status
string, as the includes check of the bulk parsers does. -/
def statusFromString (s : String) : Option ReadingStatus :=
  if s = "Okudum" then some .Read
  else if s = "Okumadım" then some .Unread
  else if s = "Okuyorum" then some .Reading
  else if s = "Okumayı Düşünüyorum" then some .PlanningToRead
  else if s = "Yarıda Bıraktım" then some .Dropped
  else none

/-- The Book record of src/types.ts.  imageLinks.thumbnail is flattened to a
single field; currentPage is Option Int because the bulk CSV path stores a
raw parseInt result, which can be NaN (modelled as none). -/
structure Book where
  id : String
  title : String
  authors : List String
  publisher : String
  publishedDate : String
  description : String
  pageCount : Int
  categories : List String
  thumbnail : String
  readingStatus : ReadingStatus
  currentPage : Option Int
deriving DecidableEq, Repr

/-- The Filters record of src/types.ts; readingStatus none models the
sentinel string value all. -/
structure Filters where
  title : String
  author : String
  publisher : String
  category : String
  readingStatus : Option ReadingStatus
deriving DecidableEq, Repr

/-- The initialFilters value of the App component. -/
def initialFilters : Filters :=
  { title := "", author := "", publisher := "", category := "", readingStatus := none }

/-! ## CSV bulk parser (src/types.ts, parseCSV and parseLine) -/

/-- Helper for the quote-aware split: split the character list at every
comma that is followed by an even number of double-quote characters, which
is exactly what the lookahead of the source regex tests.  cur is the
reversed current field. -/
def splitQuoteAwareAux : List Char → List Char → List String
  | [], cur => [String.mk cur.reverse]
  | c :: rest, cur =>
    if c = ',' && (rest.count '"') % 2 = 0 then
      String.mk cur.reverse :: splitQuoteAwareAux rest []
    else
      splitQuoteAwareAux rest (c :: cur)

/-- line.split of the source regex: a comma is a delimiter only when the
remainder of the line holds an even number of double quotes (the comma is
outside any quoted field). -/
def splitQuoteAware (line : String) : List String :=
  splitQuoteAwareAux line.data []

/-- val.replace of the anchored quote regex: remove one leading and one
trailing double quote when present. -/
def stripWrappingQuotes (s : String) : String :=
  let s1 := if strStartsWith s "\"" then s.drop 1 else s
  if strEndsWith s1 "\"" then s1.dropRight 1 else s1

/-- Left-to-right non-overlapping decoding of doubled double quotes, the
behaviour of val.replace with the global doubled-quote regex. -/
def decodeDQChars : List Char → List Char
  | '"' :: '"' :: rest => '"' :: decodeDQChars rest
  | c :: rest => c :: decodeDQChars rest
  | [] => []

/-- val.replace of the doubled-quote regex: decode every doubled double
quote to a literal double quote. -/
def decodeDoubledQuotes (s : String) : String :=
  String.mk (decodeDQChars s.data)

/-- The parseLine helper of parseCSV: quote-aware split, then per field
trim, strip the wrapping quotes and decode doubled quotes. -/
def parseLine (line : String) : List String :=
  (splitQuoteAware line).map (fun val => decodeDoubledQuotes (stripWrappingQuotes (strTrim val)))

/-- The row object built by parseCSV: row[header] = values[index] for each
header in order, a later assignment overwriting an earlier one; a key never
assigned reads as undefined. -/
def rowLookup (headers values : List String) (key : String) : Option String :=
  (headers.zip values).foldl (fun acc hv => if hv.1 = key then some hv.2 else acc) none

/-- s.split of a comma followed by a trim of every part, the author and
category treatment of the CSV row. -/
def splitCommaTrim (s : String) : List String :=
  (strSplit s (fun c => c = ',')).map strTrim

/-- The deterministic placeholder cover URL derived from a seed string. -/
def picsumUrl (seed : String) (w h : Nat) : String :=
  "https://picsum.photos/seed/" ++ seed ++ "/" ++ toString w ++ "/" ++ toString h

/-- The body of the parseCSV row loop for one data line: build the row
object, skip the line when it has fewer values than headers or when title
or author is falsy, and otherwise assemble the Book exactly as the source
does.  now stands for Date.now() and i is the (1-based) line index used in
the synthetic id. -/
def csvRowToBook (now : Nat) (headers : List String) (i : Nat) (line : String) : Option Book :=
  let values := parseLine line
  if values.length < headers.length then none
  else
    let row := rowLookup headers values
    if !(jsTruthy (row "title") && jsTruthy (row "author")) then none
    else
      let pageCountVal := jsParseInt (jsStrOr (row "pagecount") (jsStrOr (row "pages") "0"))
      some {
        id := "bulk_" ++ toString now ++ "_" ++ toString i
        title := (row "title").getD ""
        authors :=
          if jsTruthy (row "author") then splitCommaTrim ((row "author").getD "")
          else if jsTruthy (row "authors") then splitCommaTrim ((row "authors").getD "")
          else ["Unknown"]
        publisher := jsStrOr (row "publisher") "Unknown Publisher"
        publishedDate := jsStrOr (row "publisheddate") (jsStrOr (row "year") "N/A")
        description := jsStrOr (row "description") ""
        pageCount :=
          match pageCountVal with
          | none => 0
          | some n => n
        categories :=
          if jsTruthy (row "categories") then splitCommaTrim ((row "categories").getD "")
          else if jsTruthy (row "category") then [(row "category").getD ""]
          else ["Uncategorized"]
        thumbnail :=
          jsStrOr (row "imagelink")
            (jsStrOr (row "thumbnail") (picsumUrl (jsStripSpace ((row "title").getD "")) 300 480))
        readingStatus :=
          match row "status" with
          | some s => (statusFromString s).getD .PlanningToRead
          | none => .PlanningToRead
        currentPage := jsParseInt (jsStrOr (row "currentpage") "0")
      }

/-- text.split of the line-break regex followed by the blank-line filter:
split at every newline, drop a carriage return left at the end of a chunk,
and keep only the lines that are nonblank after trimming. -/
def csvLines (text : String) : List String :=
  ((strSplit text (fun c => c = '\n')).map
    (fun l => if strEndsWith l "\r" then l.dropRight 1 else l)).filter
    (fun l => !(strTrim l).isEmpty)

/-- The parseCSV function: reject a file with fewer than two nonblank
lines, lowercase and parse the header line, then run the row loop over the
data lines (line index starting at 1). -/
def parseCSV (now : Nat) (text : String) : Except String (List Book) :=
  match csvLines text with
  | [] => .error "CSV file is empty or missing headers"
  | [_] => .error "CSV file is empty or missing headers"
  | l0 :: rest =>
    let headers := parseLine (jsToLower l0)
    .ok (rest.enum.filterMap (fun p => csvRowToBook now headers (p.1 + 1) p.2))

/-! ## XML bulk parser (src/types.ts, parseXML) -/

/-- Split the character list around the first occurrence of needle,
returning the part before it and the part after it. -/
def splitFirstAux (needle : List Char) : List Char → List Char → Option (List Char × List Char)
  | [], accRev => if needle.isEmpty then some (accRev.reverse, []) else none
  | c :: rest, accRev =>
    if startsWithChars (c :: rest) needle then
      some (accRev.reverse, (c :: rest).drop needle.length)
    else
      splitFirstAux needle rest (c :: accRev)

/-- Collect the inner text of every openT ... closeT pair, scanning left to
right; the fuel argument bounds the recursion by the text length. -/
def xmlInnerTextsAux (openT closeT : List Char) : Nat → List Char → List String
  | 0, _ => []
  | fuel + 1, cs =>
    match splitFirstAux openT cs [] with
    | none => []
    | some p =>
      match splitFirstAux closeT p.2 [] with
      | none => []
      | some q => String.mk q.1 :: xmlInnerTextsAux openT closeT fuel q.2

/-- Modelled from the spec: the browser DOMParser and getElementsByTagName
lookups used by parseXML are a platform API absent from src; the spec
describes the format as a flat list of book elements each read via
first-child-by-tag-name lookups, which this left-to-right tag scanner
realises (an element is the text between an opening and a closing tag). -/
def xmlInnerTexts (tag : String) (text : String) : List String :=
  xmlInnerTextsAux ("<" ++ tag ++ ">").data ("</" ++ tag ++ ">").data (text.length + 1) text.data

/-- The getText helper of parseXML: text content of the first child with
the given tag name, or the empty string. -/
def getTextXml (node : String) (tag : String) : String :=
  ((xmlInnerTexts tag node).headD "")

/-- The parseXML function over the tag-scanner model of the DOM: iterate
the book nodes (index starting at 0), skip a node with a falsy title, and
assemble the Book exactly as the source does. -/
def parseXML (now : Nat) (text : String) : List Book :=
  (xmlInnerTexts "book" text).enum.filterMap (fun p =>
    let node := p.2
    let title := getTextXml node "title"
    let author := getTextXml node "author"
    if title.isEmpty then none
    else
      let pageCountVal := jsParseInt (jsStrOrS (getTextXml node "pageCount") (jsStrOrS (getTextXml node "pages") "0"))
      let statusRaw := getTextXml node "status"
      some {
        id := "bulk_" ++ toString now ++ "_" ++ toString p.1
        title := title
        authors := if author.isEmpty then ["Unknown"] else splitCommaTrim author
        publisher := jsStrOrS (getTextXml node "publisher") "Unknown Publisher"
        publishedDate := jsStrOrS (getTextXml node "publishedDate") "N/A"
        description := getTextXml node "description"
        pageCount :=
          match pageCountVal with
          | none => 0
          | some n => n
        categories :=
          if (getTextXml node "categories").isEmpty then ["Uncategorized"]
          else strSplit (getTextXml node "categories") (fun c => c = ',')
        thumbnail := jsStrOrS (getTextXml node "thumbnail") (picsumUrl (jsStripSpace title) 300 480)
        readingStatus := (statusFromString statusRaw).getD .PlanningToRead
        currentPage := jsParseInt (jsStrOrS (getTextXml node "currentPage") "0")
      })

/-! ## File upload and bulk import (src/types.ts, handleFileUpload and
handleBulkImport) -/

/-- The parse phase of handleFileUpload: dispatch on the file extension,
raising the unsupported-format error for any other name; an error value is
the thrown-and-caught exception of the source. -/
def parseUpload (now : Nat) (fileName text : String) : Except String (List Book) :=
  if strEndsWith fileName ".csv" then parseCSV now text
  else if strEndsWith fileName ".xml" then .ok (parseXML now text)
  else .error "Unsupported file format. Please use .csv or .xml"

/-- The observable outcome of handleFileUpload: either the bulk error
message shown to the user, or the parsed preview list. -/
inductive UploadOutcome where
  | bulkError (msg : String)
  | preview (books : List Book)
deriving DecidableEq, Repr

/-- The whole handleFileUpload flow: a caught parse exception becomes the
bulk error with its message, an empty parse result becomes the
no-valid-books bulk error, and otherwise the parsed books become the
preview. -/
def handleFileUpload (now : Nat) (fileName text : String) : UploadOutcome :=
  match parseUpload now fileName text with
  | .error msg => .bulkError msg
  | .ok found => if found.length = 0 then .bulkError "No valid books found in file." else .preview found

/-! ## Library state manager (src/unnamed/part_003, addBook and
updateBook) -/

/-- The single-book branch of addBook: refuse a book whose id is already
present, otherwise append it. -/
def addBookSingle (books : List Book) (b : Book) : List Book :=
  if books.any (fun x => x.id = b.id) then books else books ++ [b]

/-- The bulk branch of addBook: keep the incoming books whose id is not
already in the library and append them in one step when any survive. -/
def addBookBulk (books : List Book) (incoming : List Book) : List Book :=
  let newBooks := incoming.filter (fun nb => !(books.any (fun x => x.id = nb.id)))
  if newBooks.length > 0 then books ++ newBooks else books

/-- The updateBook handler: map over the library replacing every entry
whose id matches the incoming book. -/
def updateBook (books : List Book) (u : Book) : List Book :=
  books.map (fun b => if b.id = u.id then u else b)

/-- b.authors[0]?.toLowerCase() of handleBulkImport: the lowercased first
author, or undefined when the author list is empty. -/
def firstAuthorLower (b : Book) : Option String :=
  b.authors.head?.map jsToLower

/-- The handleBulkImport commit: drop every parsed book that matches an
existing library entry on lowercased title and lowercased first author,
then hand the survivors to the bulk branch of addBook in one call.  The
function returns the resulting library state. -/
def handleBulkImport (books parsedBooks : List Book) : List Book :=
  let newBooks := parsedBooks.filter (fun book =>
    !(books.any (fun b =>
      jsToLower b.title = jsToLower book.title &&
      firstAuthorLower b = firstAuthorLower book)))
  if newBooks.length > 0 then addBookBulk books newBooks else books

/-! ## Filter engine (src/unnamed/part_003, filteredBooks) -/

/-- Model of Array.prototype.join with a separator. -/
def joinSep (sep : String) (parts : List String) : String :=
  String.intercalate sep parts

/-- The filteredBooks memo: keep a book when every one of the five
predicates of the source holds. -/
def filteredBooks (books : List Book) (filters : Filters) : List Book :=
  books.filter (fun book =>
    let titleMatch := jsIncludes (jsToLower book.title) (jsToLower filters.title)
    let authorMatch := jsIncludes (jsToLower (joinSep ", " book.authors)) (jsToLower filters.author)
    let publisherMatch := jsIncludes (jsToLower book.publisher) (jsToLower filters.publisher)
    let categoryMatch :=
      filters.category = "" ||
        jsIncludes (jsToLower (joinSep ", " book.categories)) (jsToLower filters.category)
    let statusMatch :=
      match filters.readingStatus with
      | none => true
      | some s => book.readingStatus = s
    titleMatch && authorMatch && publisherMatch && categoryMatch && statusMatch)

/-! ## Stats aggregator (src/types.ts, StatsPanel) -/

/-- acc[cat] = (acc[cat] || 0) + 1 on an insertion-ordered association
list: bump the count in place when the key exists, else append the key
with count one.  This models a JavaScript object with string keys, whose
enumeration order is insertion order for the non-integer-like category
names this development evaluates it on. -/
def bump : List (String × Nat) → String → List (String × Nat)
  | [], cat => [(cat, 1)]
  | kv :: rest, cat =>
    if kv.1 = cat then (kv.1, kv.2 + 1) :: rest else kv :: bump rest cat

/-- The categoryCounts reduction of StatsPanel: count every nonempty
category other than the Uncategorized placeholder over all books, in
encounter order. -/
def categoryCounts (books : List Book) : List (String × Nat) :=
  books.foldl
    (fun acc book =>
      book.categories.foldl
        (fun acc2 cat =>
          if !cat.isEmpty && cat ≠ "Uncategorized" then bump acc2 cat else acc2)
        acc)
    []

/-- Object.entries(...).reduce((a, b) => a[1] > b[1] ? a : b): keep the
accumulator only on a strictly greater count. -/
def reduceMax : (String × Nat) → List (String × Nat) → (String × Nat)
  | a, [] => a
  | a, b :: rest => reduceMax (if a.2 > b.2 then a else b) rest

/-- The favoriteGenre statistic: the reduce over the category counts when
any exist, the N/A placeholder otherwise. -/
def favoriteGenre (books : List Book) : String :=
  match categoryCounts books with
  | [] => "N/A"
  | e :: rest => (reduceMax e rest).1

/-! ## Single add and status update (src/types.ts handleAddBook and
src/unnamed/part_000 handleStatusUpdate) -/

/-- The finalCurrentPage helper of handleAddBook: the status-dependent
clamp of the current-page input against the total page count. -/
def finalCurrentPage (status : ReadingStatus) (currentPageInput : String) (totalPages : Int) : Int :=
  if status = .Read then totalPages
  else if status = .Unread || status = .PlanningToRead then 0
  else max 0 (min (jsNumOrZero (jsParseInt currentPageInput)) totalPages)

/-- The text fields of the manual add form. -/
structure ManualForm where
  title : String
  authors : String
  publisher : String
  publishedDate : String
  description : String
  categories : String
  image : String
  pageCount : String
  currentPage : String
  readingStatus : ReadingStatus
deriving Repr

/-- The manual branch of handleAddBook: reject a non-positive or
unparseable total page count, reject a blank title or author field, and
otherwise build the Book with the clamped current page.  none is the
alert-and-return path of the source. -/
def handleAddBookManual (now : Nat) (f : ManualForm) : Option Book :=
  match jsParseInt f.pageCount with
  | none => none
  | some totalPages =>
    if totalPages ≤ 0 then none
    else if (strTrim f.title).isEmpty || (strTrim f.authors).isEmpty then none
    else
      some {
        id := "manual_" ++ toString now
        title := strTrim f.title
        authors := (strSplit f.authors (fun c => c = ',')).map strTrim |>.filter (fun a => !a.isEmpty)
        publisher := jsStrOrS (strTrim f.publisher) "Unknown Publisher"
        publishedDate := jsStrOrS (strTrim f.publishedDate) "N/A"
        description := jsStrOrS (strTrim f.description) "No description available."
        pageCount := totalPages
        categories :=
          if !f.categories.isEmpty then
            (strSplit f.categories (fun c => c = ',')).map strTrim |>.filter (fun c => !c.isEmpty)
          else ["Uncategorized"]
        thumbnail := jsStrOrS (strTrim f.image) (picsumUrl (jsStripSpace f.title) 300 480)
        readingStatus := f.readingStatus
        currentPage := some (finalCurrentPage f.readingStatus f.currentPage totalPages)
      }

/-- The handleStatusUpdate handler of the book detail modal: compute the
validated current page from the chosen status and the page input, then
write both onto the book. -/
def handleStatusUpdate (book : Book) (currentStatus : ReadingStatus) (currentPageInput : String) : Book :=
  let totalPages := book.pageCount
  let finalCP : Int :=
    if currentStatus = .Read then totalPages
    else if currentStatus = .Unread || currentStatus = .PlanningToRead then 0
    else
      match jsParseInt currentPageInput with
      | none => 0
      | some newPage =>
        if newPage < 0 then 0
        else if newPage > totalPages then totalPages
        else newPage
  { book with readingStatus := currentStatus, currentPage := some finalCP }

/-! ## The status/page invariant of the spec -/

/-- Decidable form of the status/page invariant: Read pins the current
page to the page count, Unread and PlanningToRead pin it to zero, Reading
and Dropped require a definite value between zero and the page count. -/
def checkStatusPage (b : Book) : Bool :=
  match b.readingStatus with
  | .Read => b.currentPage = some b.pageCount
  | .Unread => b.currentPage = some 0
  | .PlanningToRead => b.currentPage = some 0
  | .Reading | .Dropped =>
    match b.currentPage with
    | some n => 0 ≤ n && n ≤ b.pageCount
    | none => false

/-! ## A CSV parser variant marking the authors fallback branch -/

/-- The csvRowToBook body with the final authors fallback list replaced by
a marker value; it differs from csvRowToBook only in that branch, so the
two agree everywhere exactly when the branch is unreachable. -/
def csvRowToBookAlt (now : Nat) (headers : List String) (i : Nat) (line : String) : Option Book :=
  let values := parseLine line
  if values.length < headers.length then none
  else
    let row := rowLookup headers values
    if !(jsTruthy (row "title") && jsTruthy (row "author")) then none
    else
      let pageCountVal := jsParseInt (jsStrOr (row "pagecount") (jsStrOr (row "pages") "0"))
      some {
        id := "bulk_" ++ toString now ++ "_" ++ toString i
        title := (row "title").getD ""
        authors :=
          if jsTruthy (row "author") then splitCommaTrim ((row "author").getD "")
          else if jsTruthy (row "authors") then splitCommaTrim ((row "authors").getD "")
          else ["__UNREACHABLE__"]
        publisher := jsStrOr (row "publisher") "Unknown Publisher"
        publishedDate := jsStrOr (row "publisheddate") (jsStrOr (row "year") "N/A")
        description := jsStrOr (row "description") ""
        pageCount :=
          match pageCountVal with
          | none => 0
          | some n => n
        categories :=
          if jsTruthy (row "categories") then splitCommaTrim ((row "categories").getD "")
          else if jsTruthy (row "category") then [(row "category").getD ""]
          else ["Uncategorized"]
        thumbnail :=
          jsStrOr (row "imagelink")
            (jsStrOr (row "thumbnail") (picsumUrl (jsStripSpace ((row "title").getD "")) 300 480))
        readingStatus :=
          match row "status" with
          | some s => (statusFromString s).getD .PlanningToRead
          | none => .PlanningToRead
        currentPage := jsParseInt (jsStrOr (row "currentpage") "0")
      }

/-- parseCSV with the marked row body. -/
def parseCSValt (now : Nat) (text : String) : Except String (List Book) :=
  match csvLines text with
  | [] => .error "CSV file is empty or missing headers"
  | [_] => .error "CSV file is empty or missing headers"
  | l0 :: rest =>
    let headers := parseLine (jsToLower l0)
    .ok (rest.enum.filterMap (fun p => csvRowToBookAlt now headers (p.1 + 1) p.2))

/-! ## Spec-side update operation, for comparison with the code -/

/-- The spec's words for the update operation, stated as a second
definition to compare against the updateBook of the source: replace the
entry with matching id in place, and fail with NotFoundError when no entry
with that id exists. -/
def specUpdate (books : List Book) (u : Book) : Except String (List Book) :=
  if books.any (fun b => b.id = u.id) then
    .ok (books.map (fun b => if b.id = u.id then u else b))
  else
    .error "NotFoundError"

/-! ## The claim's words for the favourite-category tie-break -/

/-- The claim's tie-break rule, stated as a second definition to compare
against favoriteGenre: the first entry encountered in iteration order whose
count is maximal (keep the accumulator unless a strictly larger count is
found). -/
def firstEncounteredMax (l : List (String × Nat)) : Option String :=
  match l with
  | [] => none
  | e :: rest => some ((rest.foldl (fun a b => if b.2 > a.2 then b else a) e).1)

/-! ## Concrete inputs used by the claim theorems -/

/-- A baseline book record for building concrete test inputs. -/
def sampleBook : Book :=
  { id := "s1", title := "Sample", authors := ["An Author"],
    publisher := "Unknown Publisher", publishedDate := "N/A",
    description := "", pageCount := 10, categories := ["Uncategorized"],
    thumbnail := "x", readingStatus := .PlanningToRead, currentPage := some 0 }

/-- A CSV file whose one data row carries the Read status together with a
current page of its own. -/
def c1csv : String := "title,author,pages,status,currentpage\nX,Y,100,Okudum,5"

/-- The book that parseCSV produces from c1csv. -/
def c1book : Book :=
  { id := "bulk_0_1", title := "X", authors := ["Y"],
    publisher := "Unknown Publisher", publishedDate := "N/A",
    description := "", pageCount := 100, categories := ["Uncategorized"],
    thumbnail := "https://picsum.photos/seed/X/300/480",
    readingStatus := .Read, currentPage := some 5 }

/-- A filled manual add form with a Reading status and an out-of-range
current page input. -/
def c1form : ManualForm :=
  { title := "T", authors := "A", publisher := "", publishedDate := "",
    description := "", categories := "", image := "", pageCount := "100",
    currentPage := "150", readingStatus := .Reading }

/-- The book that handleAddBookManual produces from c1form. -/
def c1added : Book :=
  { id := "manual_7", title := "T", authors := ["A"],
    publisher := "Unknown Publisher", publishedDate := "N/A",
    description := "No description available.", pageCount := 100,
    categories := ["Uncategorized"],
    thumbnail := "https://picsum.photos/seed/T/300/480",
    readingStatus := .Reading, currentPage := some 100 }

/-- A book used to exhibit an intra-batch id duplicate. -/
def c2book : Book := { sampleBook with id := "dup" }

/-- A book whose id matches no library entry. -/
def c4missing : Book := { sampleBook with id := "zz", title := "Missing" }

/-- The library entry targeted by the in-place update. -/
def c4target : Book := { sampleBook with id := "t", title := "Old" }

/-- A two-book library whose second entry is the update target. -/
def c4lib : List Book := [sampleBook, c4target]

/-- The incoming record carrying the target's id and new data. -/
def c4new : Book := { sampleBook with id := "t", title := "New" }

/-- Books with two categories occurring twice each, in the order A A B B. -/
def c8books : List Book :=
  [ { sampleBook with id := "g1", categories := ["A"] },
    { sampleBook with id := "g2", categories := ["A"] },
    { sampleBook with id := "g3", categories := ["B"] },
    { sampleBook with id := "g4", categories := ["B"] } ]

/-- Books used by the favoriteGenre witness: one X and two Y. -/
def c8wbooks : List Book :=
  [ { sampleBook with id := "w1", categories := ["X"] },
    { sampleBook with id := "w2", categories := ["Y"] },
    { sampleBook with id := "w3", categories := ["Y"] } ]

/-- A book with two categories whose join contains text that no single
category contains. -/
def c10book : Book := { sampleBook with id := "c10", categories := ["Sci-Fi", "Horror"] }

/-- A filter whose category text spans the boundary of two adjacent
categories, written in the opposite case. -/
def c10filters : Filters := { initialFilters with category := "FI, HOR" }

/-! ## Helper lemmas -/

/-- Every character list contains the empty run. -/
theorem containsChars_nil (hay : List Char) : containsChars hay [] = true := by
  cases hay with
  | nil => rfl
  | cons c t => simp [containsChars, startsWithChars]

/-- Every string includes the empty string, as in JavaScript. -/
theorem jsIncludes_empty (s : String) : jsIncludes s "" = true := by
  simpa [jsIncludes] using containsChars_nil s.data

/-! ## C5: the filter engine on the empty filter, and stability -/

/-- C5: filteredBooks applied to the initial (empty) filter returns the
book list unchanged in order, and for every filter the result is a
subsequence of the input (stable relative order under the AND of the
active predicates). -/
theorem filteredBooks_empty_and_sublist :
    (∀ books : List Book, filteredBooks books initialFilters = books) ∧
    (∀ (books : List Book) (f : Filters), (filteredBooks books f).Sublist books) := by
  constructor
  · intro books
    unfold filteredBooks initialFilters
    rw [List.filter_eq_self]
    intro b _
    simp [jsIncludes_empty, jsToLower]
  · intro books f
    exact List.filter_sublist books

/-! ## C6: idempotence of update -/

/-- C6: applying the same updateBook operation twice yields the same
library state as applying it once. -/
theorem updateBook_idempotent :
    ∀ (books : List Book) (u : Book),
      updateBook (updateBook books u) u = updateBook books u := by
  intro books u
  unfold updateBook
  rw [List.map_map]
  apply List.map_congr_left
  intro b _
  by_cases h : b.id = u.id <;> simp [Function.comp, h]

/-! ## C7: CSV quote handling -/

/-- C7: in the CSV line splitter, a quoted field with an embedded comma is
parsed as a single value rather than split at the comma, and doubled
quotes inside a quoted field decode to a literal quote character. -/
theorem parseLine_quote_handling :
    parseLine "\"Smith, John\",other" = ["Smith, John", "other"] ∧
    parseLine "\"He said \"\"hi\"\"\",x" = ["He said \"hi\"", "x"] := by
  exact ⟨rfl, rfl⟩

/-! ## C10: category filter over the joined category list -/

/-- C10: the category predicate lowercases both sides and tests the filter
text as a substring of the categories joined with a comma-space separator,
so a filter value containing the separator can match across the boundary
of two adjacent categories even though no single category contains it, and
the match is case-insensitive. -/
theorem category_filter_cross_boundary :
    filteredBooks [c10book] c10filters = [c10book] ∧
    jsIncludes (jsToLower (joinSep ", " c10book.categories)) (jsToLower c10filters.category) = true ∧
    jsIncludes (jsToLower "Sci-Fi") (jsToLower "FI, HOR") = false ∧
    jsIncludes (jsToLower "Horror") (jsToLower "FI, HOR") = false ∧
    c10book.categories = ["Sci-Fi", "Horror"] := by
  refine ⟨?_, ?_, ?_, ?_, ?_⟩ <;> rfl

/-! ## C1: the status/page invariant -/

/-- C1 counterexample: the CSV bulk path stores the currentpage column
verbatim, so a row with the Read status and current page 5 out of 100
reaches the library through the bulk import with currentPage 5 instead of
the page count, violating the status/page invariant. -/
theorem bulk_import_violates_status_invariant :
    parseCSV 0 c1csv = .ok [c1book] ∧
    handleBulkImport [] [c1book] = [c1book] ∧
    c1book.readingStatus = ReadingStatus.Read ∧
    c1book.pageCount = 100 ∧
    c1book.currentPage = some 5 ∧
    checkStatusPage c1book = false := by
  refine ⟨by rfl, by decide, by decide, by decide, by decide, by decide⟩

/-- C1 amended: the status/page invariant holds for every book produced by
the manual add form (which validates a positive page count and applies the
status-dependent clamp) and for every book written by the status-update
handler when the book's page count is nonnegative; the bulk-import paths
do not apply the clamp. -/
theorem statusPage_single_paths :
    (∀ (now : Nat) (f : ManualForm) (bk : Book),
      handleAddBookManual now f = some bk → checkStatusPage bk = true) ∧
    (∀ (bk : Book) (st : ReadingStatus) (inp : String),
      0 ≤ bk.pageCount → checkStatusPage (handleStatusUpdate bk st inp) = true) := by
  constructor
  · intro now f bk h
    unfold handleAddBookManual at h
    cases hp : jsParseInt f.pageCount with
    | none => rw [hp] at h; exact absurd h (by simp)
    | some tp =>
      rw [hp] at h
      dsimp only at h
      by_cases h1 : tp ≤ 0
      · simp [h1] at h
      · rw [if_neg h1] at h
        by_cases h2 : ((strTrim f.title).isEmpty || (strTrim f.authors).isEmpty) = true
        · rw [if_pos h2] at h; exact absurd h (by simp)
        · rw [if_neg h2] at h
          have hbk := Option.some.inj h
          subst hbk
          cases hst : f.readingStatus <;>
            simp [checkStatusPage, finalCurrentPage, hst] <;>
            omega
  · intro bk st inp hpc
    cases st with
    | Read => simp [handleStatusUpdate, checkStatusPage]
    | Unread => simp [handleStatusUpdate, checkStatusPage]
    | PlanningToRead => simp [handleStatusUpdate, checkStatusPage]
    | Reading =>
      simp only [handleStatusUpdate, checkStatusPage]
      cases hn : jsParseInt inp with
      | none => simpa using hpc
      | some n => simp only [hn]; split_ifs <;> simp <;> omega
    | Dropped =>
      simp only [handleStatusUpdate, checkStatusPage]
      cases hn : jsParseInt inp with
      | none => simpa using hpc
      | some n => simp only [hn]; split_ifs <;> simp <;> omega

/-- C1 witness: the amended theorem evaluated on a concrete manual form
and a concrete status update. -/
theorem statusPage_single_paths_witness :
    checkStatusPage c1added = true ∧
    checkStatusPage (handleStatusUpdate c1added ReadingStatus.Dropped "42") = true :=
  ⟨statusPage_single_paths.1 7 c1form c1added (by rfl),
   statusPage_single_paths.2 c1added ReadingStatus.Dropped "42" (by decide)⟩

/-! ## C2: id uniqueness under bulk add -/

/-- One bulk add keeps distinct ids when the incoming batch itself has
distinct ids: the survivors are a sublist of the batch and their ids avoid
the library by the filter condition. -/
theorem addBookBulk_nodup_step (books incoming : List Book)
    (h1 : (books.map Book.id).Nodup) (h2 : (incoming.map Book.id).Nodup) :
    ((addBookBulk books incoming).map Book.id).Nodup := by
  simp only [addBookBulk]
  split
  · rw [List.map_append, List.nodup_append]
    refine ⟨h1, ?_, ?_⟩
    · exact List.Nodup.sublist (List.Sublist.map Book.id (List.filter_sublist incoming)) h2
    · intro a ha hb
      simp only [List.mem_map, List.mem_filter, List.any_eq_true, Bool.not_eq_true',
        List.any_eq_false, decide_eq_true_eq, decide_eq_false_iff_not] at ha hb
      obtain ⟨x, hx, hxa⟩ := ha
      obtain ⟨nb, ⟨_, hnb⟩, hnba⟩ := hb
      exact hnb x hx (hxa.trans hnba.symm)
  · exact h1

/-- Folding bulk adds from any start keeps distinct ids. -/
theorem foldl_addBookBulk_nodup (batches : List (List Book)) (start : List Book)
    (h0 : (start.map Book.id).Nodup) (h : ∀ b ∈ batches, (b.map Book.id).Nodup) :
    (((batches.foldl addBookBulk start).map Book.id)).Nodup := by
  induction batches generalizing start with
  | nil => simpa using h0
  | cons b bs ih =>
    simp only [List.foldl_cons]
    exact ih _ (addBookBulk_nodup_step _ _ h0 (h b (by simp))) (fun x hx => h x (by simp [hx]))

/-- C2 amended: for every sequence of bulk adds starting from the empty
library, the final library has pairwise-distinct ids provided every single
batch has pairwise-distinct ids; the dedup filter checks an incoming id
only against the existing library, not against the rest of its own
batch. -/
theorem addMany_nodup (batches : List (List Book))
    (h : ∀ b ∈ batches, (b.map Book.id).Nodup) :
    ((batches.foldl addBookBulk []).map Book.id).Nodup :=
  foldl_addBookBulk_nodup batches [] (by simp) h

/-- C2 witness: two batches repeating one id across batches; the second
occurrence is filtered against the library, so ids stay distinct. -/
theorem addMany_nodup_witness :
    ((([[c2book], [c2book]] : List (List Book)).foldl addBookBulk []).map Book.id).Nodup :=
  addMany_nodup [[c2book], [c2book]] (by decide)

/-- C2 counterexample: a single bulk add whose batch repeats an id appends
both copies, because the filter never compares incoming books with each
other; the claim fails for such a batch. -/
theorem addMany_intrabatch_duplicate :
    ¬ ((addBookBulk [] [c2book, c2book]).map Book.id).Nodup := by
  decide

/-! ## C4: update semantics -/

/-- updateBook leaves a segment untouched when no id in it matches. -/
theorem updateBook_skip (l : List Book) (u : Book) (h : ∀ y ∈ l, y.id ≠ u.id) :
    updateBook l u = l := by
  induction l with
  | nil => rfl
  | cons b bs ih =>
    have hb : b.id ≠ u.id := h b (by simp)
    have hbs : updateBook bs u = bs := ih (fun y hy => h y (by simp [hy]))
    simp only [updateBook, List.map_cons] at hbs ⊢
    rw [if_neg hb, hbs]

/-- C4 amended: updateBook replaces the entry whose id matches in place,
preserving its position and every other entry (under distinct ids), and
when no entry carries the incoming id it silently returns the library
unchanged — no NotFoundError is signalled. -/
theorem updateBook_inplace (books : List Book) (u : Book) :
    (∀ (l1 : List Book) (x : Book) (l2 : List Book),
      books = l1 ++ x :: l2 → x.id = u.id → (books.map Book.id).Nodup →
      updateBook books u = l1 ++ u :: l2) ∧
    ((∀ x ∈ books, x.id ≠ u.id) → updateBook books u = books) := by
  constructor
  · intro l1 x l2 hb hx hnd
    subst hb
    rw [List.map_append, List.map_cons, List.nodup_append] at hnd
    obtain ⟨-, hcons, hdisj⟩ := hnd
    rw [List.nodup_cons] at hcons
    obtain ⟨hx2, -⟩ := hcons
    have hl1 : ∀ y ∈ l1, y.id ≠ u.id := fun y hy hco =>
      hdisj (List.mem_map.mpr ⟨y, hy, rfl⟩) (List.mem_cons.mpr (Or.inl (hco.trans hx.symm)))
    have hl2 : ∀ y ∈ l2, y.id ≠ u.id := fun y hy hco =>
      hx2 (List.mem_map.mpr ⟨y, hy, hco.trans hx.symm⟩)
    have e1 := updateBook_skip l1 u hl1
    have e2 := updateBook_skip l2 u hl2
    simp only [updateBook, List.map_append, List.map_cons] at e1 e2 ⊢
    rw [e1, e2, if_pos hx]
  · exact updateBook_skip books u

/-- C4 witness: the amended theorem evaluated on a concrete two-book
library, replacing the second entry in place and leaving the library
unchanged on a missing id. -/
theorem updateBook_inplace_witness :
    updateBook c4lib c4new = [sampleBook, c4new] ∧
    updateBook c4lib c4missing = c4lib :=
  ⟨(updateBook_inplace c4lib c4new).1 [sampleBook] c4target [] (by rfl) (by decide) (by decide),
   (updateBook_inplace c4lib c4missing).2 (by decide)⟩

/-- C4 counterexample: the spec-side update fails with NotFoundError when
the id is absent, but the code-side updateBook has no failure mode — it
returns the unchanged library exactly as a successful no-op would. -/
theorem update_missing_id_no_error :
    specUpdate [sampleBook] c4missing = .error "NotFoundError" ∧
    updateBook [sampleBook] c4missing = [sampleBook] :=
  ⟨by rfl, by decide⟩

/-! ## C3: parse failures and all-or-nothing import -/

/-- The XML parser yields no book for the empty file. -/
theorem parseXML_empty (now : Nat) : parseXML now "" = [] := rfl

/-- C3 counterexample: an empty file with the xml extension does not make
the parse raise an error — the parse returns an empty list and the handler
reports the no-valid-books message instead of a caught ParseError. -/
theorem empty_xml_file_no_parse_error :
    parseUpload 0 "books.xml" "" = .ok [] ∧
    handleFileUpload 0 "books.xml" "" = .bulkError "No valid books found in file." :=
  ⟨by rfl, by rfl⟩

/-- C3 amended: an unsupported extension, an empty or header-less CSV file
raise the caught parse error with its human-readable message; an empty XML
file instead surfaces the no-valid-books message with no raised error; and
every bulk-import commit is all-or-nothing — the resulting library is the
old one followed by a single appended batch of surviving candidates (a
sublist of the parsed books), the library alone when none survive. -/
theorem upload_errors_and_atomic_import :
    (∀ (now : Nat) (name text : String),
      strEndsWith name ".csv" = false → strEndsWith name ".xml" = false →
      parseUpload now name text = .error "Unsupported file format. Please use .csv or .xml") ∧
    (∀ (now : Nat) (name text : String),
      strEndsWith name ".csv" = true → (csvLines text).length < 2 →
      parseUpload now name text = .error "CSV file is empty or missing headers") ∧
    (∀ (now : Nat) (name : String),
      strEndsWith name ".csv" = false → strEndsWith name ".xml" = true →
      handleFileUpload now name "" = .bulkError "No valid books found in file.") ∧
    (∀ books parsed : List Book, ∃ survivors : List Book,
      survivors.Sublist parsed ∧ handleBulkImport books parsed = books ++ survivors) := by
  refine ⟨?_, ?_, ?_, ?_⟩
  · intro now name text h1 h2
    simp [parseUpload, h1, h2]
  · intro now name text h1 h2
    simp only [parseUpload, h1, if_true]
    unfold parseCSV
    rcases hcl : csvLines text with _ | ⟨a, _ | ⟨b, t⟩⟩
    · rfl
    · rfl
    · rw [hcl] at h2; simp only [List.length_cons] at h2; omega
  · intro now name h1 h2
    simp [handleFileUpload, parseUpload, h1, h2, parseXML_empty]
  · intro books parsed
    simp only [handleBulkImport]
    split
    · simp only [addBookBulk]
      split
      · exact ⟨_, List.Sublist.trans (List.filter_sublist _) (List.filter_sublist parsed), rfl⟩
      · exact ⟨[], List.nil_sublist parsed, by simp⟩
    · exact ⟨[], List.nil_sublist parsed, by simp⟩

/-- C3 witness: the amended theorem evaluated on concrete uploads and a
concrete import. -/
theorem upload_errors_and_atomic_import_witness :
    parseUpload 0 "a.txt" "x" = .error "Unsupported file format. Please use .csv or .xml" ∧
    parseUpload 0 "a.csv" "" = .error "CSV file is empty or missing headers" ∧
    handleFileUpload 0 "lib.xml" "" = .bulkError "No valid books found in file." ∧
    (∃ survivors : List Book, survivors.Sublist [sampleBook] ∧
      handleBulkImport [] [sampleBook] = [] ++ survivors) :=
  ⟨upload_errors_and_atomic_import.1 0 "a.txt" "x" (by decide) (by decide),
   upload_errors_and_atomic_import.2.1 0 "a.csv" "" (by decide) (by decide),
   upload_errors_and_atomic_import.2.2.1 0 "lib.xml" (by decide) (by decide),
   upload_errors_and_atomic_import.2.2.2 [] [sampleBook]⟩

/-! ## C8: the favourite category -/

/-- The source reduce keeps the accumulator only on a strictly greater
count, so it lands on the last entry attaining the maximum. -/
theorem reduceMax_last_argmax (a : String × Nat) (l : List (String × Nat)) :
    ∃ l1 l2, a :: l = l1 ++ reduceMax a l :: l2 ∧
      (∀ q ∈ a :: l, q.2 ≤ (reduceMax a l).2) ∧
      (∀ q ∈ l2, q.2 < (reduceMax a l).2) := by
  induction l generalizing a with
  | nil => exact ⟨[], [], rfl, by simp [reduceMax], by simp⟩
  | cons b rest ih =>
    rw [reduceMax]
    by_cases hab : a.2 > b.2
    · rw [if_pos hab]
      obtain ⟨l1, l2, hdec, hmax, hlast⟩ := ih a
      cases l1 with
      | nil =>
        simp only [List.nil_append] at hdec
        injection hdec with h1 h2
        refine ⟨[], b :: rest, by simp [← h1], ?_, ?_⟩
        · intro q hq
          rw [← h1]
          rcases List.mem_cons.mp hq with rfl | hq2
          · exact le_refl _
          · rcases List.mem_cons.mp hq2 with rfl | hq3
            · omega
            · have h := hmax q (List.mem_cons.mpr (Or.inr hq3))
              rw [← h1] at h
              exact h
        · intro q hq
          rw [← h1]
          rcases List.mem_cons.mp hq with rfl | hq3
          · omega
          · have h := hlast q (h2 ▸ hq3)
            rw [← h1] at h
            exact h
      | cons c m =>
        injection hdec with h1 h2
        refine ⟨a :: b :: m, l2, ?_, ?_, hlast⟩
        · conv_lhs => rw [h2]
          simp
        · intro q hq
          rcases List.mem_cons.mp hq with rfl | hq2
          · exact hmax q (by simp)
          · rcases List.mem_cons.mp hq2 with rfl | hq3
            · have h := hmax a (by simp)
              omega
            · exact hmax q (List.mem_cons.mpr (Or.inr hq3))
    · rw [if_neg hab]
      obtain ⟨l1, l2, hdec, hmax, hlast⟩ := ih b
      refine ⟨a :: l1, l2, ?_, ?_, hlast⟩
      · rw [List.cons_append, ← hdec]
      · intro q hq
        rcases List.mem_cons.mp hq with rfl | hq2
        · have h := hmax b (by simp)
          omega
        · exact hmax q hq2

/-- One bump keeps every key nonempty and different from the placeholder
when the bumped key is. -/
theorem bump_keys (acc : List (String × Nat)) (cat : String)
    (hacc : ∀ p ∈ acc, p.1 ≠ "" ∧ p.1 ≠ "Uncategorized")
    (hcat : cat ≠ "" ∧ cat ≠ "Uncategorized") :
    ∀ p ∈ bump acc cat, p.1 ≠ "" ∧ p.1 ≠ "Uncategorized" := by
  induction acc with
  | nil =>
    intro p hp
    simp only [bump, List.mem_singleton] at hp
    subst hp
    exact hcat
  | cons kv rest ih =>
    intro p hp
    simp only [bump] at hp
    by_cases h : kv.1 = cat
    · rw [if_pos h] at hp
      rcases List.mem_cons.mp hp with h1 | h2
      · rw [h1]; exact hacc kv (by simp)
      · exact hacc p (List.mem_cons.mpr (Or.inr h2))
    · rw [if_neg h] at hp
      rcases List.mem_cons.mp hp with h1 | h2
      · rw [h1]; exact hacc kv (by simp)
      · exact ih (fun q hq => hacc q (by simp [hq])) p h2

/-- The per-book category fold keeps every key nonempty and different from
the placeholder. -/
theorem catFold_keys (cats : List String) (acc : List (String × Nat))
    (hacc : ∀ p ∈ acc, p.1 ≠ "" ∧ p.1 ≠ "Uncategorized") :
    ∀ p ∈ cats.foldl
      (fun acc2 cat => if !cat.isEmpty && cat ≠ "Uncategorized" then bump acc2 cat else acc2)
      acc, p.1 ≠ "" ∧ p.1 ≠ "Uncategorized" := by
  induction cats generalizing acc with
  | nil => simpa using hacc
  | cons c cs ih =>
    simp only [List.foldl_cons]
    apply ih
    by_cases hc : (!c.isEmpty && decide (c ≠ "Uncategorized")) = true
    · rw [if_pos hc]
      refine bump_keys acc c hacc ⟨?_, ?_⟩
      · intro he
        subst he
        exact absurd hc (by decide)
      · intro he
        subst he
        exact absurd hc (by decide)
    · rw [if_neg hc]
      exact hacc

/-- Every key of the category counts is nonempty and different from the
placeholder. -/
theorem categoryCounts_keys (books : List Book) :
    ∀ p ∈ categoryCounts books, p.1 ≠ "" ∧ p.1 ≠ "Uncategorized" := by
  suffices h : ∀ (bs : List Book) (acc : List (String × Nat)),
      (∀ p ∈ acc, p.1 ≠ "" ∧ p.1 ≠ "Uncategorized") →
      ∀ p ∈ bs.foldl
        (fun acc book => book.categories.foldl
          (fun acc2 cat => if !cat.isEmpty && cat ≠ "Uncategorized" then bump acc2 cat else acc2)
          acc)
        acc, p.1 ≠ "" ∧ p.1 ≠ "Uncategorized" by
    exact h books [] (by simp)
  intro bs
  induction bs with
  | nil => intro acc hacc; simpa using hacc
  | cons b rest ih =>
    intro acc hacc
    simp only [List.foldl_cons]
    exact ih _ (catFold_keys b.categories acc hacc)

/-- C8 amended: favoriteGenre is the N/A placeholder when no categorized
book exists; otherwise it is a category attaining the maximal occurrence
count, and among the maximal ones it is the LAST encountered in
category-count iteration order (not the first); the Uncategorized
placeholder and empty categories never appear among the counted keys. -/
theorem favoriteGenre_spec (books : List Book) :
    (categoryCounts books = [] → favoriteGenre books = "N/A") ∧
    (categoryCounts books ≠ [] →
      ∃ l1 p l2, categoryCounts books = l1 ++ p :: l2 ∧ favoriteGenre books = p.1 ∧
        (∀ q ∈ categoryCounts books, q.2 ≤ p.2) ∧ (∀ q ∈ l2, q.2 < p.2)) ∧
    (∀ p ∈ categoryCounts books, p.1 ≠ "" ∧ p.1 ≠ "Uncategorized") := by
  refine ⟨?_, ?_, categoryCounts_keys books⟩
  · intro h
    simp [favoriteGenre, h]
  · intro h
    rcases hc : categoryCounts books with _ | ⟨e, rest⟩
    · exact absurd hc h
    · obtain ⟨l1, l2, hdec, hmax, hlast⟩ := reduceMax_last_argmax e rest
      refine ⟨l1, reduceMax e rest, l2, hdec, ?_, ?_, hlast⟩
      · simp [favoriteGenre, hc]
      · intro q hq
        exact hmax q hq

/-- C8 witness: the amended theorem evaluated on an empty library and on a
concrete library with counts X:1 and Y:2. -/
theorem favoriteGenre_spec_witness :
    favoriteGenre ([] : List Book) = "N/A" ∧
    (∃ l1 p l2, categoryCounts c8wbooks = l1 ++ p :: l2 ∧ favoriteGenre c8wbooks = p.1 ∧
      (∀ q ∈ categoryCounts c8wbooks, q.2 ≤ p.2) ∧ (∀ q ∈ l2, q.2 < p.2)) ∧
    (("Y", 2).1 ≠ "" ∧ ("Y", 2).1 ≠ "Uncategorized") :=
  ⟨(favoriteGenre_spec []).1 rfl,
   (favoriteGenre_spec c8wbooks).2.1 (by decide),
   (favoriteGenre_spec c8wbooks).2.2 ("Y", 2) (by decide)⟩

/-- C8 counterexample: with category counts A:2 then B:2 the code returns
B, the last maximal entry in iteration order, while the claim's
first-encountered tie-break names A. -/
theorem favoriteGenre_tiebreak_not_first :
    categoryCounts c8books = [("A", 2), ("B", 2)] ∧
    firstEncounteredMax (categoryCounts c8books) = some "A" ∧
    favoriteGenre c8books = "B" ∧
    favoriteGenre c8books ≠ "A" := by
  refine ⟨by decide, by decide, by decide, by decide⟩

/-! ## C9: the CSV author requirement -/

/-- The row body and its marked variant agree on every input, because the
guard forces a truthy author before the authors field is built. -/
theorem csvRow_eq_alt (now : Nat) (headers : List String) (i : Nat) (line : String) :
    csvRowToBook now headers i line = csvRowToBookAlt now headers i line := by
  unfold csvRowToBook csvRowToBookAlt
  by_cases hlen : (parseLine line).length < headers.length
  · simp [hlen]
  · by_cases hg : (jsTruthy (rowLookup headers (parseLine line) "title") &&
        jsTruthy (rowLookup headers (parseLine line) "author")) = true
    · have hauthor : jsTruthy (rowLookup headers (parseLine line) "author") = true :=
        ((Bool.and_eq_true _ _).mp hg).2
      simp [hlen, hg, hauthor]
    · simp [hlen, hg]

/-- C9: a CSV data row whose author field is missing or empty produces no
book even when it has a title, and consequently the Unknown authors
fallback of the row body is unreachable: the parser agrees everywhere with
a variant whose fallback is replaced by a marker. -/
theorem csv_requires_author :
    (∀ (now : Nat) (headers : List String) (i : Nat) (line : String),
      jsTruthy (rowLookup headers (parseLine line) "author") = false →
      csvRowToBook now headers i line = none) ∧
    (∀ (now : Nat) (text : String), parseCSV now text = parseCSValt now text) := by
  constructor
  · intro now headers i line h
    unfold csvRowToBook
    by_cases hlen : (parseLine line).length < headers.length
    · simp [hlen]
    · simp [hlen, h]
  · intro now text
    unfold parseCSV parseCSValt
    rcases hcl : csvLines text with _ | ⟨l0, _ | ⟨r1, rs⟩⟩
    · rfl
    · rfl
    · simp only []
      congr 1
      apply List.filterMap_congr
      intro x _
      exact csvRow_eq_alt now (parseLine (jsToLower l0)) (x.1 + 1) x.2

/-- C9 witness: a row with a title and an empty author column yields no
book, and the parser equals its marked variant on a concrete file. -/
theorem csv_requires_author_witness :
    csvRowToBook 0 ["title", "author"] 1 "X," = none ∧
    parseCSV 0 "title,author\nX,Y" = parseCSValt 0 "title,author\nX,Y" :=
  ⟨csv_requires_author.1 0 ["title", "author"] 1 "X," (by decide),
   csv_requires_author.2 0 "title,author\nX,Y"⟩

end BookLib
